import Mathlib

/-!
# LTC4099 register map: a shallow embedding of `LTC4099.hpp`

`LTC4099_Base` is a C++ class with two pure virtual functions (`read8`, `write`), four nested
structs of `static const` register/field constants, and eight one-line accessors that forward
to the virtual functions.

Embedding choices
* `uint8_t` / `uint16_t` values are natural numbers.  The accessors do no arithmetic, so no
  reduction modulo `2^8` occurs in them; a byte argument is a `Nat` below `256`.
* The two pure virtual functions become the two fields of the structure `LTC4099_Base`.  A
  derived C++ class may keep state and may throw, so a virtual call maps the transport state
  `σ` to a result (`Except.error e` for a thrown `e`) together with the state it leaves behind.
* Each `static const` member is a `def` of the same name in the namespace of its struct.
-/

/-- The abstract class `LTC4099_Base`: its two pure virtual functions, to be supplied by a
derived class.  `read8 address n` is the 8 bit read, `write address value n` the 8 bit write. -/
structure LTC4099_Base (BusError σ : Type) where
  read8 : Nat → Nat → σ → Except BusError Nat × σ
  write : Nat → Nat → Nat → σ → Except BusError Unit × σ

namespace LTC4099_Base

/-! ## REG COMMAND_0 -/

namespace COMMAND_0

def __address : Nat := 0

namespace ILim
def dflt : Nat := 0b000
def mask : Nat := 0b11100000
def USB_100mA : Nat := 0b00
def USB_500mA : Nat := 0b01
def USB_620mA : Nat := 0b10
def USB_790mA : Nat := 0b11
def USB_1000mA : Nat := 0b100
def USB_1200mA : Nat := 0b101
def USB_SUSPEND_LOW : Nat := 0b110
def USB_SUSPEND_HIGH : Nat := 0b111
end ILim

namespace ICharge
def dflt : Nat := 0b000
def mask : Nat := 0b00011100
def PROG_500_mV : Nat := 0b00
def PROG_600_mV : Nat := 0b01
def PROG_700_mV : Nat := 0b10
def PROG_800_mV : Nat := 0b11
def PROG_900_mV : Nat := 0b100
def PROG_1000_mV : Nat := 0b101
def PROG_1100_mV : Nat := 0b110
def PROG_1200_mV : Nat := 0b111
end ICharge

namespace COVERX
def dflt : Nat := 0b00
def mask : Nat := 0b00000011
def PROG_100mV : Nat := 0b00
def PROG_50mV : Nat := 0b01
def PROG_200mV : Nat := 0b10
def PROG_500mV : Nat := 0b11
end COVERX

end COMMAND_0

/-- Set register COMMAND_0 -/
def setCOMMAND_0 {BusError σ : Type} (dev : LTC4099_Base BusError σ) (value : Nat) :
    σ → Except BusError Unit × σ :=
  dev.write COMMAND_0.__address value 8

/-- Get register COMMAND_0 -/
def getCOMMAND_0 {BusError σ : Type} (dev : LTC4099_Base BusError σ) :
    σ → Except BusError Nat × σ :=
  dev.read8 COMMAND_0.__address 8

/-! ## REG COMMAND_1 -/

namespace COMMAND_1

def __address : Nat := 1

namespace TIMER
def dflt : Nat := 0b000
def mask : Nat := 0b11100000
def TIMEOUT_4h : Nat := 0b00
def TIMEOUT_5h : Nat := 0b01
def TIMEOUT_6h : Nat := 0b10
def TIMEOUT_7h : Nat := 0b11
def TIMEOUT_8h : Nat := 0b100
def TIMEOUT_1h : Nat := 0b101
def TIMEOUT_2h : Nat := 0b110
def TIMEOUT_3h : Nat := 0b111
end TIMER

namespace DISABLE_CHARGER
def mask : Nat := 0b00010000
end DISABLE_CHARGER

namespace ENABLE_BATTERY_CONDITIONER
def mask : Nat := 0b00001000
end ENABLE_BATTERY_CONDITIONER

namespace VFLOAT
def mask : Nat := 0b00000100
end VFLOAT

namespace TREG
def mask : Nat := 0b00000010
end TREG

namespace unused_0
def mask : Nat := 0b00000001
end unused_0

end COMMAND_1

/-- Set register COMMAND_1 -/
def setCOMMAND_1 {BusError σ : Type} (dev : LTC4099_Base BusError σ) (value : Nat) :
    σ → Except BusError Unit × σ :=
  dev.write COMMAND_1.__address value 8

/-- Get register COMMAND_1 -/
def getCOMMAND_1 {BusError σ : Type} (dev : LTC4099_Base BusError σ) :
    σ → Except BusError Nat × σ :=
  dev.read8 COMMAND_1.__address 8

/-! ## REG IRQ_MASK -/

namespace IRQ_MASK

def __address : Nat := 2

namespace USBGOOD
def dflt : Nat := 0b0
def mask : Nat := 0b10000000
end USBGOOD

namespace WALLGOOD
def dflt : Nat := 0b0
def mask : Nat := 0b01000000
end WALLGOOD

namespace BADCELL
def dflt : Nat := 0b0
def mask : Nat := 0b00100000
end BADCELL

namespace THERMAL_REG
def dflt : Nat := 0b0
def mask : Nat := 0b00010000
end THERMAL_REG

namespace THERMISTOR_STATUS
def dflt : Nat := 0b0
def mask : Nat := 0b00001000
end THERMISTOR_STATUS

namespace CHARGER_STATUS
def dflt : Nat := 0b0
def mask : Nat := 0b00000100
end CHARGER_STATUS

namespace unused_0
def dflt : Nat := 0b00
def mask : Nat := 0b00000011
end unused_0

end IRQ_MASK

/-- Set register IRQ_MASK -/
def setIRQ_MASK {BusError σ : Type} (dev : LTC4099_Base BusError σ) (value : Nat) :
    σ → Except BusError Unit × σ :=
  dev.write IRQ_MASK.__address value 8

/-- Get register IRQ_MASK -/
def getIRQ_MASK {BusError σ : Type} (dev : LTC4099_Base BusError σ) :
    σ → Except BusError Nat × σ :=
  dev.read8 IRQ_MASK.__address 8

/-! ## REG OUTPUT -/

namespace OUTPUT

def __address : Nat := 3

namespace USBGOOD
def mask : Nat := 0b10000000
end USBGOOD

namespace WALLGOOD
def mask : Nat := 0b01000000
end WALLGOOD

namespace BADCELL
def mask : Nat := 0b00100000
end BADCELL

namespace THERMAL_REG
def mask : Nat := 0b00010000
end THERMAL_REG

namespace NTC
def mask : Nat := 0b00001100
def NO_NTC_FAULT : Nat := 0b00
def BATTERY_TOO_COLD : Nat := 0b01
def BATTERY_TOO_HOT : Nat := 0b10
def BATTERY_OVERTEMPERATURE : Nat := 0b11
end NTC

namespace CHRGR
def mask : Nat := 0b00000011
def CHARGER_OFF : Nat := 0b00
def CONSTANT_CURRENT : Nat := 0b01
def CONSTANT_V_GREATER : Nat := 0b10
def CONSTANT_V_LESS : Nat := 0b11
end CHRGR

end OUTPUT

/-- Set register OUTPUT -/
def setOUTPUT {BusError σ : Type} (dev : LTC4099_Base BusError σ) (value : Nat) :
    σ → Except BusError Unit × σ :=
  dev.write OUTPUT.__address value 8

/-- Get register OUTPUT -/
def getOUTPUT {BusError σ : Type} (dev : LTC4099_Base BusError σ) :
    σ → Except BusError Nat × σ :=
  dev.read8 OUTPUT.__address 8

/-! ## Specification vocabulary

The definitions below are not part of the C++ source.  They are the test doubles and the
bookkeeping that the properties of the register map are stated with. -/

/-- One invocation of a virtual function of the transport, with its actual arguments. -/
inductive Call where
  | read8 (address n : Nat)
  | write (address value n : Nat)
  deriving DecidableEq

/-- Instrumentation of an arbitrary transport: every virtual call is forwarded unchanged to
`dev` and appended to a log of the calls made so far. -/
def recording {BusError σ : Type} (dev : LTC4099_Base BusError σ) :
    LTC4099_Base BusError (σ × List Call) where
  read8 address n st :=
    ((dev.read8 address n st.1).1, ((dev.read8 address n st.1).2, st.2 ++ [Call.read8 address n]))
  write address value n st :=
    ((dev.write address value n st.1).1,
      ((dev.write address value n st.1).2, st.2 ++ [Call.write address value n]))

/-- Modelled from the spec: the simulated transport of the round-trip property, one that
"simply stores the last-written byte per address".  The source declares `read8` and `write`
pure virtual and ships no implementation.  The state is the register file, a map from address
to content; `write` takes a `uint8_t`, so the cell receives `value % 2 ^ 8`. -/
def storingTransport {BusError : Type} : LTC4099_Base BusError (Nat → Nat) where
  read8 address _ mem := (Except.ok (mem address), mem)
  write address value _ mem :=
    (Except.ok (), fun a => if a = address then value % 2 ^ 8 else mem a)

/-- Modelled from the spec: "a transport that fails every call".  Each call raises the error
`err` assigns to it and leaves the simulated register file untouched. -/
def failingTransport {BusError : Type} (err : Call → BusError) :
    LTC4099_Base BusError (Nat → Nat) where
  read8 address n mem := (Except.error (err (Call.read8 address n)), mem)
  write address value n mem := (Except.error (err (Call.write address value n)), mem)

/-- Bit positions, within a register of eight bits, that are set in `m`, lowest first.  This is
the list the source writes in the comment next to each mask, for instance `[5,6,7]`. -/
def bitsOf (m : Nat) : List Nat :=
  (List.range 8).filter (fun i => m.testBit i)

/-- Masks of every field declared in `struct COMMAND_0`, in source order. -/
def COMMAND_0.fieldMasks : List Nat :=
  [COMMAND_0.ILim.mask, COMMAND_0.ICharge.mask, COMMAND_0.COVERX.mask]

/-- Masks of every field declared in `struct COMMAND_1`, in source order. -/
def COMMAND_1.fieldMasks : List Nat :=
  [COMMAND_1.TIMER.mask, COMMAND_1.DISABLE_CHARGER.mask,
   COMMAND_1.ENABLE_BATTERY_CONDITIONER.mask, COMMAND_1.VFLOAT.mask, COMMAND_1.TREG.mask,
   COMMAND_1.unused_0.mask]

/-- Masks of every field declared in `struct IRQ_MASK`, in source order. -/
def IRQ_MASK.fieldMasks : List Nat :=
  [IRQ_MASK.USBGOOD.mask, IRQ_MASK.WALLGOOD.mask, IRQ_MASK.BADCELL.mask,
   IRQ_MASK.THERMAL_REG.mask, IRQ_MASK.THERMISTOR_STATUS.mask, IRQ_MASK.CHARGER_STATUS.mask,
   IRQ_MASK.unused_0.mask]

/-- Masks of every field declared in `struct OUTPUT`, in source order. -/
def OUTPUT.fieldMasks : List Nat :=
  [OUTPUT.USBGOOD.mask, OUTPUT.WALLGOOD.mask, OUTPUT.BADCELL.mask, OUTPUT.THERMAL_REG.mask,
   OUTPUT.NTC.mask, OUTPUT.CHRGR.mask]

/-- Labelled constants of `COMMAND_0::ILim`, in source order. -/
def COMMAND_0.ILim.labels : List Nat :=
  [USB_100mA, USB_500mA, USB_620mA, USB_790mA, USB_1000mA, USB_1200mA, USB_SUSPEND_LOW,
   USB_SUSPEND_HIGH]

/-- Labelled constants of `COMMAND_0::ICharge`, in source order. -/
def COMMAND_0.ICharge.labels : List Nat :=
  [PROG_500_mV, PROG_600_mV, PROG_700_mV, PROG_800_mV, PROG_900_mV, PROG_1000_mV,
   PROG_1100_mV, PROG_1200_mV]

/-- Labelled constants of `COMMAND_0::COVERX`, in source order. -/
def COMMAND_0.COVERX.labels : List Nat :=
  [PROG_100mV, PROG_50mV, PROG_200mV, PROG_500mV]

/-- Labelled constants of `COMMAND_1::TIMER`, in source order. -/
def COMMAND_1.TIMER.labels : List Nat :=
  [TIMEOUT_4h, TIMEOUT_5h, TIMEOUT_6h, TIMEOUT_7h, TIMEOUT_8h, TIMEOUT_1h, TIMEOUT_2h,
   TIMEOUT_3h]

/-- Labelled constants of `OUTPUT::NTC`, in source order. -/
def OUTPUT.NTC.labels : List Nat :=
  [NO_NTC_FAULT, BATTERY_TOO_COLD, BATTERY_TOO_HOT, BATTERY_OVERTEMPERATURE]

/-- Labelled constants of `OUTPUT::CHRGR`, in source order. -/
def OUTPUT.CHRGR.labels : List Nat :=
  [CHARGER_OFF, CONSTANT_CURRENT, CONSTANT_V_GREATER, CONSTANT_V_LESS]

/-- An enumeration is complete for a mask when its labels are pairwise distinct, each fits in
as many bits as the mask has, and every value of that many bits is labelled. -/
def EnumComplete (mask : Nat) (labels : List Nat) : Prop :=
  labels.Nodup ∧ (∀ l ∈ labels, l < 2 ^ (bitsOf mask).length) ∧
    ∀ v, v < 2 ^ (bitsOf mask).length → v ∈ labels

/-- The masks of one register do not overlap and each fits the 8 bit register. -/
def MasksDisjoint (masks : List Nat) : Prop :=
  masks.Pairwise (fun f g => f &&& g = 0) ∧ ∀ m ∈ masks, m < 2 ^ 8

/-! ## Whole-register accessors -/

/-- C1: round-trip identity.  Against the simulated transport that stores the last-written byte
per address, for every register R of COMMAND_0, COMMAND_1, IRQ_MASK, OUTPUT and every byte `v`,
`setR(v)` succeeds and the `getR()` that follows returns exactly `v`. -/
theorem setR_getR_roundtrip {BusError : Type} (v : Nat) (hv : v < 256) (mem : Nat → Nat) :
    ((setCOMMAND_0 (@storingTransport BusError) v mem).1 = Except.ok () ∧
      (getCOMMAND_0 (@storingTransport BusError)
        (setCOMMAND_0 (@storingTransport BusError) v mem).2).1 = Except.ok v) ∧
    ((setCOMMAND_1 (@storingTransport BusError) v mem).1 = Except.ok () ∧
      (getCOMMAND_1 (@storingTransport BusError)
        (setCOMMAND_1 (@storingTransport BusError) v mem).2).1 = Except.ok v) ∧
    ((setIRQ_MASK (@storingTransport BusError) v mem).1 = Except.ok () ∧
      (getIRQ_MASK (@storingTransport BusError)
        (setIRQ_MASK (@storingTransport BusError) v mem).2).1 = Except.ok v) ∧
    ((setOUTPUT (@storingTransport BusError) v mem).1 = Except.ok () ∧
      (getOUTPUT (@storingTransport BusError)
        (setOUTPUT (@storingTransport BusError) v mem).2).1 = Except.ok v) := by
  simp [setCOMMAND_0, getCOMMAND_0, setCOMMAND_1, getCOMMAND_1, setIRQ_MASK, getIRQ_MASK,
    setOUTPUT, getOUTPUT, storingTransport, hv]

/-- Witness of C1 at the byte `0xA5`, on a register file that holds `0xFF` everywhere. -/
theorem setR_getR_roundtrip_witness :
    0xA5 < 256 ∧
    (getCOMMAND_0 (@storingTransport Unit)
        (setCOMMAND_0 (@storingTransport Unit) 0xA5 (fun _ => 0xFF)).2).1 = Except.ok 0xA5 ∧
    (getOUTPUT (@storingTransport Unit)
        (setOUTPUT (@storingTransport Unit) 0xA5 (fun _ => 0xFF)).2).1 = Except.ok 0xA5 :=
  ⟨by decide,
    (setR_getR_roundtrip 0xA5 (by decide) (fun _ => 0xFF)).1.2,
    (setR_getR_roundtrip 0xA5 (by decide) (fun _ => 0xFF)).2.2.2.2⟩

/-- C2: for every transport `dev`, in every transport state `s` and after any earlier calls
`log`, each `getR()` makes exactly one transport call, `read8(R.__address, 8)` with addresses
0, 1, 2, 3, makes no `write`, and hands back the transport's result and state untouched. -/
theorem getR_is_one_read8 {BusError σ : Type} (dev : LTC4099_Base BusError σ) (s : σ)
    (log : List Call) :
    (COMMAND_0.__address = 0 ∧ COMMAND_1.__address = 1 ∧ IRQ_MASK.__address = 2 ∧
      OUTPUT.__address = 3) ∧
    getCOMMAND_0 (recording dev) (s, log) =
      ((dev.read8 0 8 s).1, (dev.read8 0 8 s).2, log ++ [Call.read8 0 8]) ∧
    getCOMMAND_1 (recording dev) (s, log) =
      ((dev.read8 1 8 s).1, (dev.read8 1 8 s).2, log ++ [Call.read8 1 8]) ∧
    getIRQ_MASK (recording dev) (s, log) =
      ((dev.read8 2 8 s).1, (dev.read8 2 8 s).2, log ++ [Call.read8 2 8]) ∧
    getOUTPUT (recording dev) (s, log) =
      ((dev.read8 3 8 s).1, (dev.read8 3 8 s).2, log ++ [Call.read8 3 8]) :=
  ⟨⟨rfl, rfl, rfl, rfl⟩, rfl, rfl, rfl, rfl⟩

/-- C3: for every transport `dev`, in every state and for every byte `v`, each `setR(v)` makes
exactly one transport call, `write(R.__address, v, 8)`, makes no `read8`, passes `v` on as it
is and hands back the transport's result untouched, so the layer itself rejects nothing.  On
the storing transport `setCOMMAND_1(v)` and `setOUTPUT(v)` are accepted and leave `v` itself
in register 1 and register 3. -/
theorem setR_is_one_write {BusError σ : Type} (dev : LTC4099_Base BusError σ) (s : σ)
    (log : List Call) (mem : Nat → Nat) (v : Nat) (hv : v < 256) :
    setCOMMAND_0 (recording dev) v (s, log) =
      ((dev.write 0 v 8 s).1, (dev.write 0 v 8 s).2, log ++ [Call.write 0 v 8]) ∧
    setCOMMAND_1 (recording dev) v (s, log) =
      ((dev.write 1 v 8 s).1, (dev.write 1 v 8 s).2, log ++ [Call.write 1 v 8]) ∧
    setIRQ_MASK (recording dev) v (s, log) =
      ((dev.write 2 v 8 s).1, (dev.write 2 v 8 s).2, log ++ [Call.write 2 v 8]) ∧
    setOUTPUT (recording dev) v (s, log) =
      ((dev.write 3 v 8 s).1, (dev.write 3 v 8 s).2, log ++ [Call.write 3 v 8]) ∧
    ((setCOMMAND_1 (@storingTransport BusError) v mem).1 = Except.ok () ∧
      (setCOMMAND_1 (@storingTransport BusError) v mem).2 1 = v) ∧
    ((setOUTPUT (@storingTransport BusError) v mem).1 = Except.ok () ∧
      (setOUTPUT (@storingTransport BusError) v mem).2 3 = v) := by
  refine ⟨rfl, rfl, rfl, rfl, ⟨rfl, ?_⟩, ⟨rfl, ?_⟩⟩
  · simp [setCOMMAND_1, COMMAND_1.__address, storingTransport, hv]
  · simp [setOUTPUT, OUTPUT.__address, storingTransport, hv]

/-- Witness of C3: the byte `0x10`, which has the DISABLE_CHARGER bit set, is forwarded by
`setCOMMAND_1` in one `write(1, 0x10, 8)` and accepted; `setOUTPUT` forwards it likewise. -/
theorem setR_is_one_write_witness :
    0x10 < 256 ∧ 0x10 &&& COMMAND_1.DISABLE_CHARGER.mask = COMMAND_1.DISABLE_CHARGER.mask ∧
    setCOMMAND_1 (recording (@storingTransport Unit)) 0x10 (fun _ => 0, []) =
      (((@storingTransport Unit).write 1 0x10 8 (fun _ => 0)).1,
        ((@storingTransport Unit).write 1 0x10 8 (fun _ => 0)).2, [] ++ [Call.write 1 0x10 8]) ∧
    setOUTPUT (recording (@storingTransport Unit)) 0x10 (fun _ => 0, []) =
      (((@storingTransport Unit).write 3 0x10 8 (fun _ => 0)).1,
        ((@storingTransport Unit).write 3 0x10 8 (fun _ => 0)).2, [] ++ [Call.write 3 0x10 8]) ∧
    ((setCOMMAND_1 (@storingTransport Unit) 0x10 (fun _ => 0)).1 = Except.ok () ∧
      (setCOMMAND_1 (@storingTransport Unit) 0x10 (fun _ => 0)).2 1 = 0x10) :=
  ⟨by decide, by decide,
    (setR_is_one_write storingTransport (fun _ => 0) [] (fun _ => 0) 0x10 (by decide)).2.1,
    (setR_is_one_write storingTransport (fun _ => 0) [] (fun _ => 0) 0x10 (by decide)).2.2.2.1,
    (setR_is_one_write storingTransport (fun _ => 0) [] (fun _ => 0) 0x10 (by decide)).2.2.2.2.1⟩

/-- C8: with a transport that fails every call, each of the eight accessors fails with the very
error the transport raised for that call; the log holds exactly one call after it (no retry)
and the simulated register file `mem` is left as it was. -/
theorem failing_transport_error_surfaces {BusError : Type} (err : Call → BusError)
    (mem : Nat → Nat) (log : List Call) (v : Nat) :
    (getCOMMAND_0 (recording (failingTransport err)) (mem, log) =
        (Except.error (err (Call.read8 0 8)), mem, log ++ [Call.read8 0 8]) ∧
      getCOMMAND_1 (recording (failingTransport err)) (mem, log) =
        (Except.error (err (Call.read8 1 8)), mem, log ++ [Call.read8 1 8]) ∧
      getIRQ_MASK (recording (failingTransport err)) (mem, log) =
        (Except.error (err (Call.read8 2 8)), mem, log ++ [Call.read8 2 8]) ∧
      getOUTPUT (recording (failingTransport err)) (mem, log) =
        (Except.error (err (Call.read8 3 8)), mem, log ++ [Call.read8 3 8])) ∧
    (setCOMMAND_0 (recording (failingTransport err)) v (mem, log) =
        (Except.error (err (Call.write 0 v 8)), mem, log ++ [Call.write 0 v 8]) ∧
      setCOMMAND_1 (recording (failingTransport err)) v (mem, log) =
        (Except.error (err (Call.write 1 v 8)), mem, log ++ [Call.write 1 v 8]) ∧
      setIRQ_MASK (recording (failingTransport err)) v (mem, log) =
        (Except.error (err (Call.write 2 v 8)), mem, log ++ [Call.write 2 v 8]) ∧
      setOUTPUT (recording (failingTransport err)) v (mem, log) =
        (Except.error (err (Call.write 3 v 8)), mem, log ++ [Call.write 3 v 8])) :=
  ⟨⟨rfl, rfl, rfl, rfl⟩, rfl, rfl, rfl, rfl⟩

/-! ## Field decoding -/

/-- C6: field decoding of COMMAND_0 through the declared masks is exact.  For `i` in [0,7],
`c` in [0,7] and `x` in [0,3], after `setCOMMAND_0((i << 5) | (c << 2) | x)` against the storing
transport, `getCOMMAND_0()` returns a byte `b` with `(b & ILim::mask) >> 5 = i`,
`(b & ICharge::mask) >> 2 = c` and `(b & COVERX::mask) >> 0 = x`. -/
theorem COMMAND_0_field_decoding {BusError : Type} (i c x : Nat) (hi : i < 8) (hc : c < 8)
    (hx : x < 4) (mem : Nat → Nat) :
    ∃ b, (getCOMMAND_0 (@storingTransport BusError)
            (setCOMMAND_0 (@storingTransport BusError)
              ((i <<< 5) ||| (c <<< 2) ||| x) mem).2).1 = Except.ok b ∧
      (b &&& COMMAND_0.ILim.mask) >>> 5 = i ∧
      (b &&& COMMAND_0.ICharge.mask) >>> 2 = c ∧
      (b &&& COMMAND_0.COVERX.mask) >>> 0 = x := by
  have key : ∀ i, i < 8 → ∀ c, c < 8 → ∀ x, x < 4 →
      ((i <<< 5) ||| (c <<< 2) ||| x) % 2 ^ 8 = ((i <<< 5) ||| (c <<< 2) ||| x) ∧
      (((i <<< 5) ||| (c <<< 2) ||| x) &&& COMMAND_0.ILim.mask) >>> 5 = i ∧
      (((i <<< 5) ||| (c <<< 2) ||| x) &&& COMMAND_0.ICharge.mask) >>> 2 = c ∧
      (((i <<< 5) ||| (c <<< 2) ||| x) &&& COMMAND_0.COVERX.mask) >>> 0 = x := by
    decide
  obtain ⟨hb, h1, h2, h3⟩ := key i hi c hc x hx
  refine ⟨(i <<< 5) ||| (c <<< 2) ||| x, ?_, h1, h2, h3⟩
  simp only [setCOMMAND_0, getCOMMAND_0, storingTransport, if_true, hb]

/-- Witness of C6, the scenario of the specification: writing `0b10100001` decodes ILim to
`0b101`, which is USB_1200mA, ICharge to `0b000` and COVERX to `0b01`. -/
theorem COMMAND_0_field_decoding_witness :
    (5 < 8 ∧ 0 < 8 ∧ 1 < 4) ∧ ((5 <<< 5) ||| (0 <<< 2) ||| 1) = 0b10100001 ∧
    ∃ b, (getCOMMAND_0 (@storingTransport Unit)
            (setCOMMAND_0 (@storingTransport Unit) 0b10100001 (fun _ => 0)).2).1 = Except.ok b ∧
      (b &&& COMMAND_0.ILim.mask) >>> 5 = COMMAND_0.ILim.USB_1200mA ∧
      (b &&& COMMAND_0.ICharge.mask) >>> 2 = 0b000 ∧
      (b &&& COMMAND_0.COVERX.mask) >>> 0 = 0b01 :=
  ⟨by decide, by decide,
    COMMAND_0_field_decoding 5 0 1 (by decide) (by decide) (by decide) (fun _ => 0)⟩

/-! ## The register catalogue -/

/-- C4: the control registers are declared as the catalogue states.  COMMAND_0 is at address 0
with ILim on bits 5..7 (0xE0), ICharge on bits 2..4 (0x1C), COVERX on bits 0..1 (0x03);
COMMAND_1 is at address 1 with TIMER on bits 5..7 (0xE0), DISABLE_CHARGER on bit 4 (0x10),
ENABLE_BATTERY_CONDITIONER on bit 3 (0x08), VFLOAT on bit 2 (0x04), TREG on bit 1 (0x02) and
unused_0 on bit 0 (0x01). -/
theorem control_registers_catalogue :
    (COMMAND_0.__address = 0 ∧
      (COMMAND_0.ILim.mask = 0xE0 ∧ bitsOf COMMAND_0.ILim.mask = [5, 6, 7]) ∧
      (COMMAND_0.ICharge.mask = 0x1C ∧ bitsOf COMMAND_0.ICharge.mask = [2, 3, 4]) ∧
      (COMMAND_0.COVERX.mask = 0x03 ∧ bitsOf COMMAND_0.COVERX.mask = [0, 1])) ∧
    (COMMAND_1.__address = 1 ∧
      (COMMAND_1.TIMER.mask = 0xE0 ∧ bitsOf COMMAND_1.TIMER.mask = [5, 6, 7]) ∧
      (COMMAND_1.DISABLE_CHARGER.mask = 0x10 ∧ bitsOf COMMAND_1.DISABLE_CHARGER.mask = [4]) ∧
      (COMMAND_1.ENABLE_BATTERY_CONDITIONER.mask = 0x08 ∧
        bitsOf COMMAND_1.ENABLE_BATTERY_CONDITIONER.mask = [3]) ∧
      (COMMAND_1.VFLOAT.mask = 0x04 ∧ bitsOf COMMAND_1.VFLOAT.mask = [2]) ∧
      (COMMAND_1.TREG.mask = 0x02 ∧ bitsOf COMMAND_1.TREG.mask = [1]) ∧
      (COMMAND_1.unused_0.mask = 0x01 ∧ bitsOf COMMAND_1.unused_0.mask = [0])) := by
  decide

/-- C5: the interrupt-mask and status registers are declared as the catalogue states.
IRQ_MASK is at address 2; each of USBGOOD, WALLGOOD, BADCELL, THERMAL_REG, THERMISTOR_STATUS,
CHARGER_STATUS has a mask that is a single power of two `2 ^ k` with `2 ≤ k ≤ 7`, that is,
exactly one bit set, inside bits 2..7; its unused_0 is bits 0..1 (0x03).  OUTPUT is at address
3; each of USBGOOD, WALLGOOD, BADCELL, THERMAL_REG has exactly one bit set, NTC is bits 2..3
(0x0C) and CHRGR is bits 0..1 (0x03). -/
theorem irq_and_status_registers_catalogue :
    (IRQ_MASK.__address = 2 ∧
      (∀ m ∈ [IRQ_MASK.USBGOOD.mask, IRQ_MASK.WALLGOOD.mask, IRQ_MASK.BADCELL.mask,
          IRQ_MASK.THERMAL_REG.mask, IRQ_MASK.THERMISTOR_STATUS.mask,
          IRQ_MASK.CHARGER_STATUS.mask],
        ∃ k, k < 8 ∧ 2 ≤ k ∧ m = 2 ^ k ∧ bitsOf m = [k]) ∧
      (IRQ_MASK.unused_0.mask = 0x03 ∧ bitsOf IRQ_MASK.unused_0.mask = [0, 1])) ∧
    (OUTPUT.__address = 3 ∧
      (∀ m ∈ [OUTPUT.USBGOOD.mask, OUTPUT.WALLGOOD.mask, OUTPUT.BADCELL.mask,
          OUTPUT.THERMAL_REG.mask],
        ∃ k, k < 8 ∧ m = 2 ^ k ∧ bitsOf m = [k]) ∧
      (OUTPUT.NTC.mask = 0x0C ∧ bitsOf OUTPUT.NTC.mask = [2, 3]) ∧
      (OUTPUT.CHRGR.mask = 0x03 ∧ bitsOf OUTPUT.CHRGR.mask = [0, 1])) := by
  decide

/-- C7: the default-value constants are the documented power-up values.  The default of
COMMAND_0::ILim is the label USB_100mA; each of the six interrupt enables of IRQ_MASK has
default 0; every other declared default (COMMAND_0::ICharge, COMMAND_0::COVERX,
COMMAND_1::TIMER, IRQ_MASK::unused_0) is 0. -/
theorem defaults_are_power_up_values :
    COMMAND_0.ILim.dflt = COMMAND_0.ILim.USB_100mA ∧
    (IRQ_MASK.USBGOOD.dflt = 0 ∧ IRQ_MASK.WALLGOOD.dflt = 0 ∧ IRQ_MASK.BADCELL.dflt = 0 ∧
      IRQ_MASK.THERMAL_REG.dflt = 0 ∧ IRQ_MASK.THERMISTOR_STATUS.dflt = 0 ∧
      IRQ_MASK.CHARGER_STATUS.dflt = 0) ∧
    (COMMAND_0.ICharge.dflt = 0 ∧ COMMAND_0.COVERX.dflt = 0 ∧ COMMAND_1.TIMER.dflt = 0 ∧
      IRQ_MASK.unused_0.dflt = 0) := by
  decide

/-- C9: in each of the four registers the masks of the declared fields are pairwise
non-overlapping (`F::mask & G::mask = 0` for distinct fields F, G) and every mask lies within
the 8 bit width of the register. -/
theorem field_masks_disjoint :
    MasksDisjoint COMMAND_0.fieldMasks ∧ MasksDisjoint COMMAND_1.fieldMasks ∧
    MasksDisjoint IRQ_MASK.fieldMasks ∧ MasksDisjoint OUTPUT.fieldMasks := by
  unfold MasksDisjoint
  decide

/-- C10: every multi-bit field has a complete enumeration that fits its mask.  ILim, ICharge
and TIMER have 3-bit masks and 8 labels, COVERX, NTC and CHRGR have 2-bit masks and 4 labels;
in each the labels are pairwise distinct, each is below `2 ^ k` for `k` the number of mask
bits, and every value below `2 ^ k` is a label.  ILim runs from USB_100mA = 0 through
USB_SUSPEND_HIGH = 7. -/
theorem enumerations_complete :
    ((bitsOf COMMAND_0.ILim.mask).length = 3 ∧ COMMAND_0.ILim.labels.length = 8 ∧
      EnumComplete COMMAND_0.ILim.mask COMMAND_0.ILim.labels) ∧
    ((bitsOf COMMAND_0.ICharge.mask).length = 3 ∧ COMMAND_0.ICharge.labels.length = 8 ∧
      EnumComplete COMMAND_0.ICharge.mask COMMAND_0.ICharge.labels) ∧
    ((bitsOf COMMAND_1.TIMER.mask).length = 3 ∧ COMMAND_1.TIMER.labels.length = 8 ∧
      EnumComplete COMMAND_1.TIMER.mask COMMAND_1.TIMER.labels) ∧
    ((bitsOf COMMAND_0.COVERX.mask).length = 2 ∧ COMMAND_0.COVERX.labels.length = 4 ∧
      EnumComplete COMMAND_0.COVERX.mask COMMAND_0.COVERX.labels) ∧
    ((bitsOf OUTPUT.NTC.mask).length = 2 ∧ OUTPUT.NTC.labels.length = 4 ∧
      EnumComplete OUTPUT.NTC.mask OUTPUT.NTC.labels) ∧
    ((bitsOf OUTPUT.CHRGR.mask).length = 2 ∧ OUTPUT.CHRGR.labels.length = 4 ∧
      EnumComplete OUTPUT.CHRGR.mask OUTPUT.CHRGR.labels) ∧
    (COMMAND_0.ILim.USB_100mA = 0 ∧ COMMAND_0.ILim.USB_SUSPEND_HIGH = 7 ∧
      COMMAND_0.ILim.labels = [0, 1, 2, 3, 4, 5, 6, 7]) := by
  unfold EnumComplete
  decide

end LTC4099_Base
